import Mathlib

/- Verification development for the openexr-core Rust binding
   (openexr-core and openexr-core-sys crates).

   The definitions below are a shallow embedding of the binding:
   - the error table and the result-code conversion come from
     openexr-core-sys/src/lib.rs (exr_result_t::ok);
   - the public enums and their sys conversions come from
     openexr-core/src/attr.rs;
   - the phase-typed context machinery comes from
     openexr-core/src/context.rs, part.rs and attr.rs;
   - behavior of the wrapped native library (exr_get_tile_levels,
     exr_read_chunk, the decode pipeline, ...) is not part of the crates;
     where a claim depends on it, the native call is modelled from the
     spec and marked as such in its doc comment.

   Native enum wire values follow the generated bindings for the
   OpenEXR 3.1 headers (openexr_wrapper.rs, produced by build.rs). -/

namespace ExrBind

/-- Claim support: the public error enum, one variant per native error code,
from openexr-core-sys/src/lib.rs (enum Error). -/
inductive Error where
  | OutOfMemory
  | MissingContextArg
  | InvalidArgument
  | ArgumentOutOfRange
  | FileAccess
  | FileBadHeader
  | NotOpenRead
  | NotOpenWrite
  | HeaderNotWritten
  | ReadIo
  | WriteIo
  | NameTooLong
  | MissingReqAttr
  | InvalidAttr
  | NoAttrByName
  | AttrTypeMismatch
  | AttrSizeMismatch
  | ScanTileMixedApi
  | TileScanMixedApi
  | ModifySizeChange
  | AlreadyWroteAttrs
  | BadChunkLeader
  | CorruptChunk
  | IncorrectPart
  | IncorrectChunk
  | UseScanDeepWrite
  | UseTileDeepWrite
  | UseScanNonDeepWrite
  | UseTileNonDeepWrite
  | InvalidSampleData
  | FeatureNotImplemented
  | Unknown
  deriving DecidableEq, Repr

/-- exr_result_t::ok from openexr-core-sys/src/lib.rs: maps a native result
code to Ok on EXR_ERR_SUCCESS, to the corresponding Error variant on each
of the 32 recognized error codes, and panics (modelled as `none`) on any
other value. Code numbering follows exr_error_code_t in the generated
bindings (0 = SUCCESS .. 32 = UNKNOWN). -/
def resultOk : Nat → Option (Except Error Unit)
  | 0 => some (Except.ok ())
  | 1 => some (Except.error Error.OutOfMemory)
  | 2 => some (Except.error Error.MissingContextArg)
  | 3 => some (Except.error Error.InvalidArgument)
  | 4 => some (Except.error Error.ArgumentOutOfRange)
  | 5 => some (Except.error Error.FileAccess)
  | 6 => some (Except.error Error.FileBadHeader)
  | 7 => some (Except.error Error.NotOpenRead)
  | 8 => some (Except.error Error.NotOpenWrite)
  | 9 => some (Except.error Error.HeaderNotWritten)
  | 10 => some (Except.error Error.ReadIo)
  | 11 => some (Except.error Error.WriteIo)
  | 12 => some (Except.error Error.NameTooLong)
  | 13 => some (Except.error Error.MissingReqAttr)
  | 14 => some (Except.error Error.InvalidAttr)
  | 15 => some (Except.error Error.NoAttrByName)
  | 16 => some (Except.error Error.AttrTypeMismatch)
  | 17 => some (Except.error Error.AttrSizeMismatch)
  | 18 => some (Except.error Error.ScanTileMixedApi)
  | 19 => some (Except.error Error.TileScanMixedApi)
  | 20 => some (Except.error Error.ModifySizeChange)
  | 21 => some (Except.error Error.AlreadyWroteAttrs)
  | 22 => some (Except.error Error.BadChunkLeader)
  | 23 => some (Except.error Error.CorruptChunk)
  | 24 => some (Except.error Error.IncorrectPart)
  | 25 => some (Except.error Error.IncorrectChunk)
  | 26 => some (Except.error Error.UseScanDeepWrite)
  | 27 => some (Except.error Error.UseTileDeepWrite)
  | 28 => some (Except.error Error.UseScanNonDeepWrite)
  | 29 => some (Except.error Error.UseTileNonDeepWrite)
  | 30 => some (Except.error Error.InvalidSampleData)
  | 31 => some (Except.error Error.FeatureNotImplemented)
  | 32 => some (Except.error Error.Unknown)
  | _ => none

/-- Helper mirroring the generic exr_result_t::ok(val): on success carries
`val` through, on a recognized error code gives the typed error, and on an
unrecognized code panics (`none`). -/
def exrResultOkVal {α : Type} (code : Nat) (val : α) : Option (Except Error α) :=
  (resultOk code).map (fun r => r.map (fun _ => val))

/-- Public Compression enum from openexr-core/src/attr.rs. -/
inductive Compression where
  | None
  | Rle
  | Zips
  | Zip
  | Piz
  | Pxr24
  | B44
  | B44a
  | Dwaa
  | Dwab
  deriving DecidableEq, Repr

/-- From Compression for exr_compression_t (attr.rs): the native wire value. -/
def Compression.toSys : Compression → Nat
  | .None => 0
  | .Rle => 1
  | .Zips => 2
  | .Zip => 3
  | .Piz => 4
  | .Pxr24 => 5
  | .B44 => 6
  | .B44a => 7
  | .Dwaa => 8
  | .Dwab => 9

/-- From exr_compression_t for Compression (attr.rs): the ten declared
constants convert; every other wire value hits the catch-all panic arm,
modelled as `none`. -/
def Compression.fromSys : Nat → Option Compression
  | 0 => some .None
  | 1 => some .Rle
  | 2 => some .Zips
  | 3 => some .Zip
  | 4 => some .Piz
  | 5 => some .Pxr24
  | 6 => some .B44
  | 7 => some .B44a
  | 8 => some .Dwaa
  | 9 => some .Dwab
  | _ => none

/-- Public Storage enum from openexr-core/src/attr.rs. -/
inductive Storage where
  | Scanline
  | Tiled
  | DeepScanline
  | DeepTiled
  deriving DecidableEq, Repr

/-- From Storage for exr_storage_t (attr.rs). -/
def Storage.toSys : Storage → Nat
  | .Scanline => 0
  | .Tiled => 1
  | .DeepScanline => 2
  | .DeepTiled => 3

/-- From exr_storage_t for Storage (attr.rs); unrecognized wire values hit
the panic arm, modelled as `none`. -/
def Storage.fromSys : Nat → Option Storage
  | 0 => some .Scanline
  | 1 => some .Tiled
  | 2 => some .DeepScanline
  | 3 => some .DeepTiled
  | _ => none

/-- Public LineOrder enum from openexr-core/src/attr.rs. -/
inductive LineOrder where
  | IncreasingY
  | DecreasingY
  | RandomY
  deriving DecidableEq, Repr

/-- From LineOrder for exr_lineorder_t (attr.rs). -/
def LineOrder.toSys : LineOrder → Nat
  | .IncreasingY => 0
  | .DecreasingY => 1
  | .RandomY => 2

/-- From exr_lineorder_t for LineOrder (attr.rs); unrecognized wire values
hit the panic arm, modelled as `none`. -/
def LineOrder.fromSys : Nat → Option LineOrder
  | 0 => some .IncreasingY
  | 1 => some .DecreasingY
  | 2 => some .RandomY
  | _ => none

/-- Public PixelType enum from openexr-core/src/attr.rs. -/
inductive PixelType where
  | Uint
  | Half
  | Float
  deriving DecidableEq, Repr

/-- From PixelType for exr_pixel_type_t (attr.rs). -/
def PixelType.toSys : PixelType → Nat
  | .Uint => 0
  | .Half => 1
  | .Float => 2

/-- From exr_pixel_type_t for PixelType (attr.rs); unrecognized wire values
hit the panic arm, modelled as `none`. -/
def PixelType.fromSys : Nat → Option PixelType
  | 0 => some .Uint
  | 1 => some .Half
  | 2 => some .Float
  | _ => none

/-- Public LevelMode enum from openexr-core/src/attr.rs. -/
inductive LevelMode where
  | OneLevel
  | MipmapLevels
  | RipmapLevels
  deriving DecidableEq, Repr

/-- From exr_tile_level_mode_t for LevelMode (attr.rs); unrecognized wire
values hit the panic arm, modelled as `none`. -/
def LevelMode.fromSys : Nat → Option LevelMode
  | 0 => some .OneLevel
  | 1 => some .MipmapLevels
  | 2 => some .RipmapLevels
  | _ => none

/-- Public TileRoundMode enum from openexr-core/src/attr.rs. -/
inductive TileRoundMode where
  | RoundDown
  | RoundUp
  deriving DecidableEq, Repr

/-- From exr_tile_round_mode_t for TileRoundMode (attr.rs); unrecognized
wire values hit the panic arm, modelled as `none`. -/
def TileRoundMode.fromSys : Nat → Option TileRoundMode
  | 0 => some .RoundDown
  | 1 => some .RoundUp
  | _ => none

/- ------------------------------------------------------------------
   Phase-typed context state machine (context.rs, part.rs, attr.rs)
   ------------------------------------------------------------------ -/

/-- The four context phases, one per phantom state type in context.rs:
ReadState, WriteState, WriteHeaderState, InplaceHeaderUpdateState
(ReadContext = Context of ReadState, and so on). -/
inductive Phase where
  | Read
  | Write
  | WriteHeader
  | InplaceHeaderUpdate
  deriving DecidableEq, Repr

/-- In which phases the binding offers add_part: part.rs declares add_part
in the impl block of WriteContext (= Context of WriteState) and nowhere
else; in particular WriteHeaderContext has no add_part method. -/
def addPartAvailable : Phase → Bool
  | .Write => true
  | _ => false

/-- In which phases the binding offers write_header: context.rs declares
write_header on WriteHeaderContext only. -/
def writeHeaderAvailable : Phase → Bool
  | .WriteHeader => true
  | _ => false

/-- In which phases the binding offers typed attribute mutation: attr.rs
declares AttributeWrite::set with a WriteHeaderContext argument only. -/
def setAttributeAvailable : Phase → Bool
  | .WriteHeader => true
  | _ => false

/-- The phase of the handle returned by write_header: context.rs
write_header takes self by value (consuming the WriteHeaderContext) and
on success returns a WriteContext built over the same native pointer. -/
def writeHeaderResultPhase : Phase := Phase.Write

/-- Modelled from the spec: the wrapped native call exr_add_part (declared
in the generated bindings, body not in src). Adding a part is a
write-header-phase operation; on a context in any other mode the call is
rejected with a phase violation (code 8, NOT_OPEN_WRITE) and is not a
silent no-op; in write-header mode it appends a part and returns its
index. Result is (native result code, out part index). -/
def exr_add_part (mode : Phase) (partCount : Nat) : Nat × Nat :=
  match mode with
  | .WriteHeader => (0, partCount)
  | _ => (8, 0)

/-- WriteContext::add_part from part.rs: forwards to exr_add_part and maps
the native result code through exr_result_t::ok. The receiver is a
WriteContext, so the mode of the underlying native context at every
reachable call site is the post-write_header phase, Phase.Write. -/
def WriteContext.add_part (partCount : Nat) : Option (Except Error Nat) :=
  match exr_add_part Phase.Write partCount with
  | (code, idx) => exrResultOkVal code idx

/-- Which native constructor each context constructor invokes
(context.rs): the essential content of each new() is the exr_start_*
function it calls on the freshly allocated native context. -/
inductive NativeStart where
  | exr_start_read
  | exr_start_write
  | exr_start_inplace_header_update
  deriving DecidableEq, Repr

/-- ReadContext::new (context.rs) calls sys::exr_start_read. -/
def readContextNewCall : NativeStart := NativeStart.exr_start_read

/-- WriteHeaderContext::new (context.rs) calls sys::exr_start_write. -/
def writeHeaderContextNewCall : NativeStart := NativeStart.exr_start_write

/-- InplaceHeaderUpdateContext::new (context.rs) calls
sys::exr_start_read — the same native constructor as ReadContext::new,
not exr_start_inplace_header_update. -/
def inplaceHeaderUpdateContextNewCall : NativeStart := NativeStart.exr_start_read

/- ------------------------------------------------------------------
   Part table and per-part getters (part.rs over spec-modelled natives)
   ------------------------------------------------------------------ -/

/-- One part of an open file, carrying the fields the embedded getters
consult: storage kind, compression, optional name attribute, data window
extent and tile geometry. -/
structure Part where
  storage : Storage
  compression : Compression
  name : Option String
  width : Nat
  height : Nat
  tileSizeX : Nat
  tileSizeY : Nat
  levelsX : Nat
  levelsY : Nat
  deriving DecidableEq, Repr

/-- The part table of an open native context. -/
structure FileState where
  parts : List Part
  deriving DecidableEq, Repr

/-- Modelled from the spec: exr_get_tile_levels (native, body not in src):
ARGUMENT_OUT_OF_RANGE (code 4) for an invalid part index,
TILE_SCAN_MIXEDAPI (code 19) when the part is not tiled — the query is
never coerced to a scanline answer — and otherwise SUCCESS with the level
counts. Result is (code, out x, out y). -/
def exr_get_tile_levels (ctx : FileState) (partIndex : Nat) : Nat × Nat × Nat :=
  match ctx.parts[partIndex]? with
  | none => (4, 0, 0)
  | some p =>
    match p.storage with
    | .Scanline => (19, 0, 0)
    | .DeepScanline => (19, 0, 0)
    | .Tiled => (0, p.levelsX, p.levelsY)
    | .DeepTiled => (0, p.levelsX, p.levelsY)

/-- Modelled from the spec: exr_get_tile_sizes (native, body not in src):
same part and storage checks as exr_get_tile_levels, plus
ARGUMENT_OUT_OF_RANGE for a level outside the declared level counts;
otherwise the tile dimensions. -/
def exr_get_tile_sizes (ctx : FileState) (partIndex levelX levelY : Nat) :
    Nat × Nat × Nat :=
  match ctx.parts[partIndex]? with
  | none => (4, 0, 0)
  | some p =>
    match p.storage with
    | .Scanline => (19, 0, 0)
    | .DeepScanline => (19, 0, 0)
    | .Tiled =>
      if levelX < p.levelsX ∧ levelY < p.levelsY then
        (0, p.tileSizeX, p.tileSizeY)
      else (4, 0, 0)
    | .DeepTiled =>
      if levelX < p.levelsX ∧ levelY < p.levelsY then
        (0, p.tileSizeX, p.tileSizeY)
      else (4, 0, 0)

/-- Modelled from the spec: exr_get_level_sizes (native, body not in src):
same checks as exr_get_tile_sizes; otherwise the data-window extent
shrunk by two per level. -/
def exr_get_level_sizes (ctx : FileState) (partIndex levelX levelY : Nat) :
    Nat × Nat × Nat :=
  match ctx.parts[partIndex]? with
  | none => (4, 0, 0)
  | some p =>
    match p.storage with
    | .Scanline => (19, 0, 0)
    | .DeepScanline => (19, 0, 0)
    | .Tiled =>
      if levelX < p.levelsX ∧ levelY < p.levelsY then
        (0, max 1 (p.width / 2 ^ levelX), max 1 (p.height / 2 ^ levelY))
      else (4, 0, 0)
    | .DeepTiled =>
      if levelX < p.levelsX ∧ levelY < p.levelsY then
        (0, max 1 (p.width / 2 ^ levelX), max 1 (p.height / 2 ^ levelY))
      else (4, 0, 0)

/-- Fixed scanline block height per compression method. Modelled from the
spec: 1 for uncompressed, RLE and ZIPS, 16 for ZIP and PXR24, 32 for the
remaining methods (PIZ, B44, B44A, DWAA, DWAB); the value is intrinsic to
the compression choice, with no user-configurable input. -/
def compressionBlockHeight : Compression → Nat
  | .None => 1
  | .Rle => 1
  | .Zips => 1
  | .Zip => 16
  | .Pxr24 => 16
  | .Piz => 32
  | .B44 => 32
  | .B44a => 32
  | .Dwaa => 32
  | .Dwab => 32

/-- Modelled from the spec: exr_get_scanlines_per_chunk (native, body not
in src): ARGUMENT_OUT_OF_RANGE for an invalid part index,
SCAN_TILE_MIXEDAPI (code 18) for a tiled part, and otherwise the
compression method's fixed block height. -/
def exr_get_scanlines_per_chunk (ctx : FileState) (partIndex : Nat) : Nat × Nat :=
  match ctx.parts[partIndex]? with
  | none => (4, 0)
  | some p =>
    match p.storage with
    | .Scanline => (0, compressionBlockHeight p.compression)
    | .DeepScanline => (0, compressionBlockHeight p.compression)
    | .Tiled => (18, 0)
    | .DeepTiled => (18, 0)

/-- Modelled from the spec: exr_get_name (native, body not in src):
ARGUMENT_OUT_OF_RANGE for an invalid part index; NO_ATTR_BY_NAME
(code 15) with the out pointer left null when the part has no name
attribute; otherwise SUCCESS with the name. Result is
(code, out pointer as an Option). -/
def exr_get_name (ctx : FileState) (partIndex : Nat) : Nat × Option String :=
  match ctx.parts[partIndex]? with
  | none => (4, none)
  | some p =>
    match p.name with
    | none => (15, none)
    | some s => (0, some s)

/-- Context::tile_levels from part.rs: calls exr_get_tile_levels and maps
the native code through ok, returning the out values on success. -/
def Context.tile_levels (ctx : FileState) (partIndex : Nat) :
    Option (Except Error (Nat × Nat)) :=
  match exr_get_tile_levels ctx partIndex with
  | (code, x, y) => exrResultOkVal code (x, y)

/-- Context::tile_sizes from part.rs: calls exr_get_tile_sizes and maps
the native code through ok, returning the out values on success. -/
def Context.tile_sizes (ctx : FileState) (partIndex levelX levelY : Nat) :
    Option (Except Error (Nat × Nat)) :=
  match exr_get_tile_sizes ctx partIndex levelX levelY with
  | (code, w, h) => exrResultOkVal code (w, h)

/-- Context::level_sizes from part.rs: calls exr_get_level_sizes and maps
the native code through ok, returning the out values on success. -/
def Context.level_sizes (ctx : FileState) (partIndex levelX levelY : Nat) :
    Option (Except Error (Nat × Nat)) :=
  match exr_get_level_sizes ctx partIndex levelX levelY with
  | (code, w, h) => exrResultOkVal code (w, h)

/-- Context::scanlines_per_chunk from part.rs: calls
exr_get_scanlines_per_chunk and maps the native code through ok. -/
def Context.scanlines_per_chunk (ctx : FileState) (partIndex : Nat) :
    Option (Except Error Nat) :=
  match exr_get_scanlines_per_chunk ctx partIndex with
  | (code, count) => exrResultOkVal code count

/-- Context::name from part.rs: calls exr_get_name, then matches the
mapped result — Ok falls through, Err(NoAttrByName) is absorbed and
falls through, any other error returns early — and finally null-checks
the out pointer, giving Ok(None) for a null pointer and Ok(Some(...))
otherwise. The outer `none` is the sys-level panic on an unrecognized
result code. -/
def Context.name (ctx : FileState) (partIndex : Nat) :
    Option (Except Error (Option String)) :=
  match exr_get_name ctx partIndex with
  | (code, ptr) =>
    match resultOk code with
    | none => none
    | some (Except.ok _) => some (Except.ok ptr)
    | some (Except.error Error.NoAttrByName) => some (Except.ok ptr)
    | some (Except.error e) => some (Except.error e)

/- ------------------------------------------------------------------
   Chunk I/O (chunkio.rs over a spec-modelled native read)
   ------------------------------------------------------------------ -/

/-- ChunkInfo from chunkio.rs (machine integers as Nat/Int). -/
structure ChunkInfo where
  idx : Int
  start_x : Int
  start_y : Int
  height : Nat
  width : Nat
  level_x : Nat
  level_y : Nat
  data_type : Nat
  compression : Nat
  data_offset : Nat
  packed_size : Nat
  unpacked_size : Nat
  sample_count_data_offset : Nat
  sample_count_table_size : Nat
  deriving DecidableEq, Repr

/-- The packed bytes of a chunk in the open stream: packed_size bytes
starting at data_offset (fewer if the stream ends early). -/
def chunkPackedBytes (file : List Nat) (ci : ChunkInfo) : List Nat :=
  (file.drop ci.data_offset).take ci.packed_size

/-- Modelled from the spec: the wrapped native call exr_read_chunk (body
not in src) copies the chunk's packed bytes to the caller pointer. It
receives only a raw pointer — no length — so it writes the packed bytes
unconditionally; bytes past the end of the caller allocation model an
out-of-bounds write (the result list grows beyond the buffer). -/
def exr_read_chunk_write (file : List Nat) (ci : ChunkInfo) (buf : List Nat) :
    List Nat :=
  chunkPackedBytes file ci ++ buf.drop (chunkPackedBytes file ci).length

/-- ReadContext::read_chunk from chunkio.rs: passes packed_data's pointer
straight to exr_read_chunk with no length comparison anywhere in the
function; the fn is declared unsafe and its Safety comment places the
obligation packed_data.len() >= chunk_info.packed_size on the caller. -/
def ReadContext.read_chunk (file : List Nat) (ci : ChunkInfo)
    (packed_data : List Nat) : List Nat :=
  exr_read_chunk_write file ci packed_data

/- ------------------------------------------------------------------
   Decode pipeline (decode.rs over spec-modelled natives)
   ------------------------------------------------------------------ -/

/-- Per-channel decode state from coding.rs: the caller-configured target
description consulted by run. -/
structure DecodeChannelState where
  user_bytes_per_element : Nat
  user_pixel_stride : Nat
  user_line_stride : Nat
  decode_bound : Bool
  deriving DecidableEq, Repr

/-- The decode pipeline state from decode.rs: the bound part and chunk,
the per-channel caller configuration, and the pipeline-owned scratch
buffer reused across chunks. -/
structure DecodePipeline where
  part_index : Nat
  chunk : ChunkInfo
  channels : List DecodeChannelState
  scratch : List Nat
  deriving DecidableEq, Repr

/-- ReadContext::decoding_update from decode.rs, native effect modelled
from the spec: rebinds the same pipeline object to a new chunk of the
same part, reusing all previously configured per-channel target settings
and scratch allocations. -/
def ReadContext.decoding_update (ci : ChunkInfo) (p : DecodePipeline) :
    DecodePipeline :=
  { p with chunk := ci }

/-- The bytes run writes into one channel's caller buffer: a pure
function of the caller configuration, the bound chunk and the unpacked
bytes (skipped channels receive nothing). -/
def decodeChannelOutput (ci : ChunkInfo) (unpacked : List Nat)
    (ch : DecodeChannelState) : List Nat :=
  if ch.decode_bound then unpacked.take (ch.user_line_stride * ci.height)
  else []

/-- ReadContext::decoding_run from decode.rs, native effect modelled from
the spec: reads the bound chunk's packed bytes through the owning
context, decompresses them with the external codec, unpacks each
configured channel into its caller buffer, and leaves the decompressed
bytes in the pipeline scratch. Returns the pipeline state and, per
channel, the bytes written to the caller buffer. -/
def ReadContext.decoding_run (file : List Nat)
    (decompress : Nat → List Nat → List Nat) (p : DecodePipeline) :
    DecodePipeline × List (List Nat) :=
  let unpacked := decompress p.chunk.unpacked_size (chunkPackedBytes file p.chunk)
  ({ p with scratch := unpacked },
    p.channels.map (decodeChannelOutput p.chunk unpacked))

/- ------------------------------------------------------------------
   Concrete instances used by the witnesses
   ------------------------------------------------------------------ -/

/-- A scanline part compressed with PIZ and carrying no name attribute
(the geometry of the repository test image ferris.exr). -/
def examplePizPart : Part :=
  ⟨Storage.Scanline, Compression.Piz, none, 1200, 800, 0, 0, 0, 0⟩

/-- A single-part file whose only part is the PIZ scanline part. -/
def exampleFile : FileState := ⟨[examplePizPart]⟩

/-- A small chunk descriptor: two packed bytes at stream offset one. -/
def exampleChunkInfo : ChunkInfo :=
  ⟨0, 0, 0, 1, 4, 0, 0, 0, 4, 1, 2, 8, 0, 0⟩

/- ------------------------------------------------------------------
   Theorems
   ------------------------------------------------------------------ -/

/-- Claim C1 (evaluated at the code bug): in the binding, add_part is not
offered in the write-header phase at all — part.rs places it on
WriteContext, the very phase write_header produces — and there the
wrapped library's mode check rejects every call with the phase violation
NotOpenWrite, so the method's documented success path is unreachable. -/
theorem c1_add_part_only_after_write_header :
    addPartAvailable Phase.WriteHeader = false ∧
    addPartAvailable writeHeaderResultPhase = true ∧
    WriteContext.add_part 0 = some (Except.error Error.NotOpenWrite) :=
  ⟨rfl, rfl, rfl⟩

/-- Claim C2: write_header is offered exactly in the write-header phase,
consumes that handle and yields a handle in the distinct write phase, in
which neither write_header nor typed attribute mutation is offered — the
header-mutation capability is revoked by construction, with no runtime
flag in the binding. -/
theorem c2_write_header_revokes_capability :
    writeHeaderAvailable Phase.WriteHeader = true ∧
    writeHeaderResultPhase = Phase.Write ∧
    writeHeaderResultPhase ≠ Phase.WriteHeader ∧
    writeHeaderAvailable Phase.Write = false ∧
    writeHeaderAvailable Phase.Read = false ∧
    writeHeaderAvailable Phase.InplaceHeaderUpdate = false ∧
    setAttributeAvailable Phase.Write = false ∧
    setAttributeAvailable Phase.Read = false ∧
    setAttributeAvailable Phase.InplaceHeaderUpdate = false :=
  ⟨rfl, rfl, by decide, rfl, rfl, rfl, rfl, rfl, rfl⟩

/-- Claim C3: on a part whose storage kind is Scanline, each of the three
tiled-geometry getters tile_levels, tile_sizes and level_sizes returns
Err(TileScanMixedApi); the query is never coerced to a scanline answer. -/
theorem c3_tiled_getters_on_scanline (ctx : FileState) (i : Nat) (p : Part)
    (hget : ctx.parts[i]? = some p) (hs : p.storage = Storage.Scanline) :
    Context.tile_levels ctx i = some (Except.error Error.TileScanMixedApi) ∧
    (∀ lx ly, Context.tile_sizes ctx i lx ly =
      some (Except.error Error.TileScanMixedApi)) ∧
    (∀ lx ly, Context.level_sizes ctx i lx ly =
      some (Except.error Error.TileScanMixedApi)) := by
  refine ⟨?_, fun lx ly => ?_, fun lx ly => ?_⟩ <;>
    simp [Context.tile_levels, Context.tile_sizes, Context.level_sizes,
      exr_get_tile_levels, exr_get_tile_sizes, exr_get_level_sizes,
      hget, hs, exrResultOkVal, resultOk, Except.map]

/-- Claim C3 witness: the getters on part zero of the concrete scanline
file. -/
theorem c3_witness :
    Context.tile_levels exampleFile 0 =
      some (Except.error Error.TileScanMixedApi) ∧
    Context.tile_sizes exampleFile 0 0 0 =
      some (Except.error Error.TileScanMixedApi) ∧
    Context.level_sizes exampleFile 0 0 0 =
      some (Except.error Error.TileScanMixedApi) := by
  have h := c3_tiled_getters_on_scanline exampleFile 0 examplePizPart rfl rfl
  exact ⟨h.1, h.2.1 0 0, h.2.2 0 0⟩

/-- Claim C4: under the caller obligation packed_data.len() at least
chunk_info.packed_size, read_chunk writes only inside the caller buffer
(the buffer keeps its length); and unconditionally — with no length check
in the binding — the result is the packed bytes followed by the untouched
tail of the buffer. -/
theorem c4_read_chunk_no_oob (file : List Nat) (ci : ChunkInfo)
    (packed_data : List Nat) (h : ci.packed_size ≤ packed_data.length) :
    (ReadContext.read_chunk file ci packed_data).length = packed_data.length ∧
    ReadContext.read_chunk file ci packed_data =
      chunkPackedBytes file ci ++
        packed_data.drop (chunkPackedBytes file ci).length := by
  have hle : (chunkPackedBytes file ci).length ≤ packed_data.length := by
    have h1 : (chunkPackedBytes file ci).length ≤ ci.packed_size := by
      simp only [chunkPackedBytes, List.length_take]
      omega
    omega
  refine ⟨?_, rfl⟩
  simp only [ReadContext.read_chunk, exr_read_chunk_write, List.length_append,
    List.length_drop]
  omega

/-- Claim C4 witness: a two-byte chunk read into a three-byte buffer. -/
theorem c4_witness :
    (ReadContext.read_chunk [10, 20, 30, 40] exampleChunkInfo [0, 0, 0]).length
      = 3 :=
  (c4_read_chunk_no_oob [10, 20, 30, 40] exampleChunkInfo [0, 0, 0]
    (by decide)).1

/-- Claim C5: every native enum wire value outside the recognized set —
for compression, storage, line order, pixel type, tile level and round
modes, and the result code table — hits the conversion's catch-all panic
arm (modelled as none) instead of producing a typed value; the typed
Unknown error is produced only for the dedicated UNKNOWN wire code 32,
never as a fallback. -/
theorem c5_unrecognized_native_enum_panics :
    (∀ n : Nat, Compression.fromSys (n + 10) = none) ∧
    (∀ n : Nat, Storage.fromSys (n + 4) = none) ∧
    (∀ n : Nat, LineOrder.fromSys (n + 3) = none) ∧
    (∀ n : Nat, PixelType.fromSys (n + 3) = none) ∧
    (∀ n : Nat, LevelMode.fromSys (n + 3) = none) ∧
    (∀ n : Nat, TileRoundMode.fromSys (n + 2) = none) ∧
    (∀ n : Nat, resultOk (n + 33) = none) ∧
    resultOk 32 = some (Except.error Error.Unknown) :=
  ⟨fun _ => rfl, fun _ => rfl, fun _ => rfl, fun _ => rfl, fun _ => rfl,
   fun _ => rfl, fun _ => rfl, rfl⟩

/-- Claim C6 (evaluated at the code bug): InplaceHeaderUpdateContext::new
invokes the same native constructor as ReadContext::new — exr_start_read —
and not exr_start_inplace_header_update, so the file is opened in the
read phase, not in a phase distinct from read-only construction. -/
theorem c6_inplace_update_opens_read :
    inplaceHeaderUpdateContextNewCall = readContextNewCall ∧
    inplaceHeaderUpdateContextNewCall ≠
      NativeStart.exr_start_inplace_header_update :=
  ⟨rfl, by decide⟩

/-- Claim C7: for a scanline part, scanlines_per_chunk returns the
compression method's fixed block height — a function of the compression
alone — with the values 1 for uncompressed, RLE and ZIPS, 16 for ZIP and
PXR24 and 32 for PIZ, B44, DWAA and DWAB. -/
theorem c7_scanlines_per_chunk_by_compression (ctx : FileState) (i : Nat)
    (p : Part) (hget : ctx.parts[i]? = some p)
    (hs : p.storage = Storage.Scanline) :
    Context.scanlines_per_chunk ctx i =
      some (Except.ok (compressionBlockHeight p.compression)) ∧
    compressionBlockHeight Compression.None = 1 ∧
    compressionBlockHeight Compression.Rle = 1 ∧
    compressionBlockHeight Compression.Zips = 1 ∧
    compressionBlockHeight Compression.Zip = 16 ∧
    compressionBlockHeight Compression.Pxr24 = 16 ∧
    compressionBlockHeight Compression.Piz = 32 ∧
    compressionBlockHeight Compression.B44 = 32 ∧
    compressionBlockHeight Compression.Dwaa = 32 ∧
    compressionBlockHeight Compression.Dwab = 32 := by
  refine ⟨?_, rfl, rfl, rfl, rfl, rfl, rfl, rfl, rfl, rfl⟩
  simp [Context.scanlines_per_chunk, exr_get_scanlines_per_chunk, hget, hs,
    exrResultOkVal, resultOk, Except.map]

/-- Claim C7 witness: the PIZ scanline part yields 32 scanlines per
chunk. -/
theorem c7_witness :
    Context.scanlines_per_chunk exampleFile 0 = some (Except.ok 32) :=
  (c7_scanlines_per_chunk_by_compression exampleFile 0 examplePizPart
    rfl rfl).1

/-- Claim C8: rebinding an initialized pipeline to the same chunk twice,
each rebinding followed by a run, writes identical bytes into the caller
output buffers both times: the second run's output equals the first,
whatever state (scratch contents) the first run left behind. -/
theorem c8_decode_update_run_deterministic (file : List Nat)
    (decompress : Nat → List Nat → List Nat) (p : DecodePipeline)
    (ci : ChunkInfo) :
    (ReadContext.decoding_run file decompress
      (ReadContext.decoding_update ci p)).2 =
    (ReadContext.decoding_run file decompress (ReadContext.decoding_update ci
      (ReadContext.decoding_run file decompress
        (ReadContext.decoding_update ci p)).1)).2 :=
  rfl

/-- Claim C9: for each public enum, converting into the native wire value
and back is the identity. -/
theorem c9_public_enum_roundtrip :
    (∀ c : Compression, Compression.fromSys c.toSys = some c) ∧
    (∀ s : Storage, Storage.fromSys s.toSys = some s) ∧
    (∀ l : LineOrder, LineOrder.fromSys l.toSys = some l) ∧
    (∀ t : PixelType, PixelType.fromSys t.toSys = some t) := by
  refine ⟨?_, ?_, ?_, ?_⟩ <;> intro x <;> cases x <;> rfl

/-- Claim C10: Context::name absorbs the NoAttrByName error from the
native lookup — a valid part without a name attribute gives Ok(None) —
while other errors, such as ArgumentOutOfRange for an invalid part index,
propagate to the caller. -/
theorem c10_name_absorbs_no_attr_by_name (ctx : FileState) (i : Nat) :
    (∀ p : Part, ctx.parts[i]? = some p → p.name = none →
      Context.name ctx i = some (Except.ok none)) ∧
    (ctx.parts[i]? = none →
      Context.name ctx i = some (Except.error Error.ArgumentOutOfRange)) := by
  constructor
  · intro p hget hnm
    simp [Context.name, exr_get_name, hget, hnm, resultOk]
  · intro hget
    simp [Context.name, exr_get_name, hget, resultOk]

/-- Claim C10 witness: the nameless part gives Ok(None); the out-of-range
index propagates ArgumentOutOfRange. -/
theorem c10_witness :
    Context.name exampleFile 0 = some (Except.ok none) ∧
    Context.name exampleFile 1 =
      some (Except.error Error.ArgumentOutOfRange) :=
  ⟨(c10_name_absorbs_no_attr_by_name exampleFile 0).1 examplePizPart rfl rfl,
   (c10_name_absorbs_no_attr_by_name exampleFile 1).2 rfl⟩

end ExrBind

